import Mathlib

/-!
Verification of the audio-guestbook configuration header and the
headset-driven mode controller specified around it.

The repository's only source file, `src/configs.h`, defines four
compile-time constants (`DEBUG_MODE`, `RECORD_MODE`, `OVERALL_VOLUME`,
`BEEP_VOLUME`).  The surrounding controller (Settings construction,
ModeController state machine, AudioEngine interaction) is described by
the specification; those parts are modelled here from the spec's words,
while the constants are embedded from the header itself.  Volumes are
modelled as exact rationals; a possibly non-finite floating value is
modelled by the inductive `FVal`, whose `finite` constructor carries the
rational value.
-/

namespace AudioGuestbook

/-- Constant `DEBUG_MODE` from `src/configs.h`: `#define DEBUG_MODE false`. -/
def DEBUG_MODE : Bool := false

/-- Constant `RECORD_MODE` from `src/configs.h`: `#define RECORD_MODE true`. -/
def RECORD_MODE : Bool := true

/-- Constant `OVERALL_VOLUME` from `src/configs.h`: `#define OVERALL_VOLUME 0.60`. -/
def OVERALL_VOLUME : ℚ := 0.60

/-- Constant `BEEP_VOLUME` from `src/configs.h`: `#define BEEP_VOLUME 0.10f`. -/
def BEEP_VOLUME : ℚ := 0.10

/-- Modelled from the spec: a floating value supplied to Settings
construction, which may be finite (carrying its exact value) or
non-finite (an infinity or NaN). -/
inductive FVal
  | finite (q : ℚ)
  | posInf
  | negInf
  | nan
deriving DecidableEq, Repr

/-- Modelled from the spec: a floating value is finite exactly when it
carries a rational value. -/
def FVal.isFinite : FVal → Bool
  | .finite _ => true
  | _ => false

/-- Modelled from the spec: a volume parameter is valid when it is
finite and lies in the closed interval [0.0, 1.0]. -/
def FVal.isValidVolume : FVal → Bool
  | .finite q => decide (0 ≤ q ∧ q ≤ 1)
  | _ => false

/-- Modelled from the spec: the fatal startup error raised when a
configured volume is out of range or non-finite. -/
inductive ConfigError
  | configError
deriving DecidableEq, Repr

/-- Modelled from the spec: the immutable Settings snapshot
{debugMode, recordMode, overallVolume, beepVolume}. -/
structure Settings where
  debugMode : Bool
  recordMode : Bool
  overallVolume : FVal
  beepVolume : FVal
deriving DecidableEq, Repr

/-- Modelled from the spec: `Settings.construct` validates both volume
parameters (finite, in [0.0, 1.0]) and returns the immutable Settings
value unchanged — no clamping — or fails with `ConfigError`. -/
def Settings.construct (debugMode recordMode : Bool) (overallVolume beepVolume : FVal) :
    Except ConfigError Settings :=
  if overallVolume.isValidVolume && beepVolume.isValidVolume then
    .ok ⟨debugMode, recordMode, overallVolume, beepVolume⟩
  else
    .error .configError

/-- Modelled from the spec: the binary headset event produced by the
HeadsetSensor. -/
inductive HeadsetEvent
  | Lifted
  | Seated
deriving DecidableEq, Repr

/-- Modelled from the spec: the ModeController state enumeration, with
initial state `Idle`. -/
inductive CtrlState
  | Idle
  | Active
deriving DecidableEq, Repr

/-- Modelled from the spec: the AudioEngine primitives the controller
may invoke, recorded as observable calls. -/
inductive AudioCall
  | startCapture
  | stopCapture
  | startPlayback (volume : FVal)
  | stopPlayback
  | beep (volume : FVal)
deriving DecidableEq, Repr

/-- Modelled from the spec: the recoverable error surfaced when an
AudioEngine start/stop operation fails. -/
inductive DeviceError
  | deviceError
deriving DecidableEq, Repr

/-- Modelled from the spec: a debug-level log entry emitted on a
bounced (duplicate) event when `debugMode` is true. -/
inductive LogEntry
  | debugBounce (st : CtrlState) (ev : HeadsetEvent)
deriving DecidableEq, Repr

/-- Modelled from the spec: the observable outcome of dispatching one
headset event — the resulting controller state, the AudioEngine calls
made, the surfaced device error if any, and the log entries emitted. -/
structure StepResult where
  state : CtrlState
  calls : List AudioCall
  error : Option DeviceError
  logs : List LogEntry
deriving DecidableEq, Repr

/-- Modelled from the spec: the ModeController transition function.
The boolean `devOk` models whether the AudioEngine start/stop operation
invoked during the step succeeds; on failure the state is unchanged, no
beep is emitted, and a `DeviceError` is surfaced.  Every successful
non-bounce transition (mode entry and mode exit alike) emits exactly
one beep at `beepVolume`, per the spec's side-effect clause.  Bounce
events (`Seated` in `Idle`, `Lifted` in `Active`) change nothing and
only log at debug level when `debugMode` is true. -/
def handleEvent (s : Settings) (st : CtrlState) (ev : HeadsetEvent) (devOk : Bool) :
    StepResult :=
  match st, ev with
  | .Idle, .Lifted =>
    let startCall := if s.recordMode then AudioCall.startCapture
                     else AudioCall.startPlayback s.overallVolume
    if devOk then
      ⟨.Active, [startCall, .beep s.beepVolume], none, []⟩
    else
      ⟨.Idle, [startCall], some .deviceError, []⟩
  | .Active, .Seated =>
    let stopCall := if s.recordMode then AudioCall.stopCapture
                    else AudioCall.stopPlayback
    if devOk then
      ⟨.Idle, [stopCall, .beep s.beepVolume], none, []⟩
    else
      ⟨.Active, [stopCall], some .deviceError, []⟩
  | .Idle, .Seated =>
    ⟨.Idle, [], none, if s.debugMode then [.debugBounce .Idle .Seated] else []⟩
  | .Active, .Lifted =>
    ⟨.Active, [], none, if s.debugMode then [.debugBounce .Active .Lifted] else []⟩

/-- Modelled from the spec: the accumulated observable behaviour of the
controller over a finite event sequence. -/
structure RunResult where
  state : CtrlState
  calls : List AudioCall
  errors : List DeviceError
  logs : List LogEntry
deriving DecidableEq, Repr

/-- Modelled from the spec: run the controller over a finite sequence
of headset events, each paired with whether the AudioEngine operation
invoked during that step (if any) succeeds.  Events are processed one
at a time, in order, and processing always continues to the next event
regardless of device errors. -/
def runEvents (s : Settings) (st : CtrlState) :
    List (HeadsetEvent × Bool) → RunResult
  | [] => ⟨st, [], [], []⟩
  | (ev, devOk) :: rest =>
    let r := handleEvent s st ev devOk
    let r2 := runEvents s r.state rest
    ⟨r2.state, r.calls ++ r2.calls, r.error.toList ++ r2.errors, r.logs ++ r2.logs⟩

/-- Whether an AudioEngine call is a beep. -/
def AudioCall.isBeep : AudioCall → Bool
  | .beep _ => true
  | _ => false

/-- Whether an AudioEngine call is a start or stop of a stream
(capture or playback), as opposed to a beep. -/
def AudioCall.isStartStop : AudioCall → Bool
  | .beep _ => false
  | _ => true

/-- Whether an AudioEngine call is a playback primitive
(`startPlayback` or `stopPlayback`). -/
def AudioCall.isPlaybackCall : AudioCall → Bool
  | .startPlayback _ => true
  | .stopPlayback => true
  | _ => false

/-- Number of non-bounce transitions actually taken over an event
sequence: steps whose resulting state differs from the state before the
step. -/
def countTransitions (s : Settings) (st : CtrlState) :
    List (HeadsetEvent × Bool) → Nat
  | [] => 0
  | (ev, devOk) :: rest =>
    let r := handleEvent s st ev devOk
    (if r.state ≠ st then 1 else 0) + countTransitions s r.state rest

/-- The shipped Settings value assembled from the four constants of
`src/configs.h`. -/
def shippedSettings : Settings :=
  ⟨DEBUG_MODE, RECORD_MODE, .finite OVERALL_VOLUME, .finite BEEP_VOLUME⟩

/-- A floating value passes volume validation exactly when it is finite
with a value in [0, 1]. -/
lemma isValidVolume_iff (v : FVal) :
    v.isValidVolume = true ↔ ∃ q : ℚ, v = .finite q ∧ 0 ≤ q ∧ q ≤ 1 := by
  cases v with
  | finite q => simp [FVal.isValidVolume]
  | posInf => simp [FVal.isValidVolume]
  | negInf => simp [FVal.isValidVolume]
  | nan => simp [FVal.isValidVolume]

/-- C1: from `Idle`, a `Lifted` event (device operation succeeding)
invokes `startCapture` when `recordMode` is true and
`startPlayback(overallVolume)` when it is false, then invokes
`beep(beepVolume)`, and moves the controller to `Active`, for every
Settings value. -/
theorem idle_lifted_starts_and_beeps (s : Settings) :
    handleEvent s .Idle .Lifted true =
      ⟨.Active,
       [if s.recordMode then .startCapture else .startPlayback s.overallVolume,
        .beep s.beepVolume],
       none, []⟩ := rfl

/-- C2: from `Active`, a `Seated` event (device operation succeeding)
invokes `stopCapture` when `recordMode` is true and `stopPlayback` when
it is false, and moves the controller back to `Idle`, for every
Settings value.  (Per the spec's side-effect clause, the exit
transition also emits the confirmation beep.) -/
theorem active_seated_stops (s : Settings) :
    handleEvent s .Active .Seated true =
      ⟨.Idle,
       [if s.recordMode then .stopCapture else .stopPlayback,
        .beep s.beepVolume],
       none, []⟩ := rfl

/-- C3: Settings construction succeeds — returning the four inputs
unchanged, with no clamping — exactly when both volume parameters are
finite and lie in [0, 1]; otherwise it fails with `ConfigError`. -/
theorem construct_ok_iff_valid (d r : Bool) (ov bv : FVal) :
    (Settings.construct d r ov bv = .ok ⟨d, r, ov, bv⟩ ↔
      (∃ q : ℚ, ov = .finite q ∧ 0 ≤ q ∧ q ≤ 1) ∧
      (∃ q : ℚ, bv = .finite q ∧ 0 ≤ q ∧ q ≤ 1)) ∧
    (Settings.construct d r ov bv = .error .configError ↔
      ¬ ((∃ q : ℚ, ov = .finite q ∧ 0 ≤ q ∧ q ≤ 1) ∧
         (∃ q : ℚ, bv = .finite q ∧ 0 ≤ q ∧ q ≤ 1))) := by
  rw [← isValidVolume_iff, ← isValidVolume_iff]
  unfold Settings.construct
  by_cases hov : ov.isValidVolume = true <;>
    by_cases hbv : bv.isValidVolume = true <;>
      simp [hov, hbv]

/-- C4: a `Seated` event in `Idle` and a `Lifted` event in `Active` are
bounces: the state is unchanged and no AudioEngine call at all is made
(only a debug log entry when `debugMode` is true), regardless of
whether the device would have succeeded — so repeated `Lifted` events
while `Active` never double-start a stream. -/
theorem bounce_events_are_noops (s : Settings) (devOk : Bool) :
    handleEvent s .Idle .Seated devOk =
      ⟨.Idle, [], none,
       if s.debugMode then [.debugBounce .Idle .Seated] else []⟩ ∧
    handleEvent s .Active .Lifted devOk =
      ⟨.Active, [], none,
       if s.debugMode then [.debugBounce .Active .Lifted] else []⟩ :=
  ⟨rfl, rfl⟩

/-- C5: when the AudioEngine start/stop operation of a transition
attempt fails, the state is unchanged, the attempted start/stop call is
the only call made (in particular no beep), a `DeviceError` is
surfaced, and the controller goes on to process the remaining events
exactly as if the failed step had not changed its state. -/
theorem device_failure_rolls_back (s : Settings) :
    (handleEvent s .Idle .Lifted false =
      ⟨.Idle,
       [if s.recordMode then .startCapture else .startPlayback s.overallVolume],
       some .deviceError, []⟩) ∧
    ((handleEvent s .Idle .Lifted false).calls.all
        (fun c => ! c.isBeep) = true) ∧
    (handleEvent s .Active .Seated false =
      ⟨.Active,
       [if s.recordMode then .stopCapture else .stopPlayback],
       some .deviceError, []⟩) ∧
    ((handleEvent s .Active .Seated false).calls.all
        (fun c => ! c.isBeep) = true) ∧
    (∀ (st : CtrlState) (ev : HeadsetEvent) (rest : List (HeadsetEvent × Bool)),
      (runEvents s st ((ev, false) :: rest)).state =
        (runEvents s st rest).state) := by
  refine ⟨rfl, ?_, rfl, ?_, ?_⟩
  · cases h : s.recordMode <;> simp [handleEvent, AudioCall.isBeep, h]
  · cases h : s.recordMode <;> simp [handleEvent, AudioCall.isBeep, h]
  · intro st ev rest
    cases st <;> cases ev <;> simp [runEvents, handleEvent]

/-- C7: from `Idle`, a `Lifted` event followed by a `Seated` event
(both device operations succeeding) returns the controller exactly to
`Idle`, for every Settings value. -/
theorem lift_then_seat_round_trip (s : Settings) :
    (runEvents s .Idle [(.Lifted, true), (.Seated, true)]).state = .Idle := rfl

/-- C9: the shipped constants of `src/configs.h` satisfy the Settings
invariant: both volumes are finite, strictly positive and in [0, 1],
`BEEP_VOLUME` is strictly below `OVERALL_VOLUME`, and Settings
construction from the shipped header succeeds without `ConfigError`. -/
theorem shipped_constants_valid :
    Settings.construct DEBUG_MODE RECORD_MODE
        (.finite OVERALL_VOLUME) (.finite BEEP_VOLUME) = .ok shippedSettings ∧
    (FVal.finite OVERALL_VOLUME).isFinite = true ∧
    (FVal.finite BEEP_VOLUME).isFinite = true ∧
    0 < OVERALL_VOLUME ∧ OVERALL_VOLUME ≤ 1 ∧
    0 < BEEP_VOLUME ∧ BEEP_VOLUME ≤ 1 ∧
    BEEP_VOLUME < OVERALL_VOLUME := by
  refine ⟨?_, rfl, rfl, ?_, ?_, ?_, ?_, ?_⟩ <;>
    simp [Settings.construct, FVal.isValidVolume, shippedSettings,
      DEBUG_MODE, RECORD_MODE, OVERALL_VOLUME, BEEP_VOLUME] <;> norm_num

/-- Dispatching one event emits exactly one beep — at `beepVolume` —
when the step changes the state, and none otherwise. -/
lemma handleEvent_beeps (s : Settings) (st : CtrlState) (ev : HeadsetEvent)
    (devOk : Bool) :
    (handleEvent s st ev devOk).calls.filter AudioCall.isBeep =
      List.replicate (if (handleEvent s st ev devOk).state ≠ st then 1 else 0)
        (AudioCall.beep s.beepVolume) := by
  cases st <;> cases ev <;> cases devOk <;> cases h : s.recordMode <;>
    simp [handleEvent, AudioCall.isBeep, h]

/-- Over any event sequence from any state, the beep calls emitted are
exactly one `beep(beepVolume)` per state-changing step. -/
lemma runEvents_beeps (s : Settings) :
    ∀ (trace : List (HeadsetEvent × Bool)) (st : CtrlState),
      (runEvents s st trace).calls.filter AudioCall.isBeep =
        List.replicate (countTransitions s st trace) (AudioCall.beep s.beepVolume)
  | [], _ => rfl
  | (ev, devOk) :: rest, st => by
    simp only [runEvents, countTransitions, List.filter_append]
    rw [handleEvent_beeps,
      runEvents_beeps s rest (handleEvent s st ev devOk).state,
      ← List.replicate_add]

/-- C6: over every finite event sequence processed from `Idle`, the
beep calls emitted are exactly one per non-bounce transition taken
(state-changing step), each at `beepVolume` regardless of `recordMode`;
in particular no beep is emitted on a bounce event. -/
theorem beeps_match_transitions (s : Settings)
    (trace : List (HeadsetEvent × Bool)) :
    (runEvents s .Idle trace).calls.filter AudioCall.isBeep =
      List.replicate (countTransitions s .Idle trace)
        (AudioCall.beep s.beepVolume) :=
  runEvents_beeps s trace .Idle

/-- Under the shipped configuration (`RECORD_MODE = true`), no step
ever issues a playback call. -/
lemma runEvents_shipped_no_playback :
    ∀ (trace : List (HeadsetEvent × Bool)) (st : CtrlState),
      (runEvents shippedSettings st trace).calls.all
        (fun c => ! c.isPlaybackCall) = true
  | [], _ => rfl
  | (ev, devOk) :: rest, st => by
    simp only [runEvents, List.all_append, Bool.and_eq_true]
    refine ⟨?_, runEvents_shipped_no_playback rest _⟩
    cases st <;> cases ev <;> cases devOk <;>
      simp [handleEvent, shippedSettings, RECORD_MODE, AudioCall.isPlaybackCall]

/-- C8: under the shipped configuration, where `RECORD_MODE` is true,
no event sequence from any state ever produces a `startPlayback` or
`stopPlayback` call; lifting the headset starts capture and seating it
stops capture. -/
theorem shipped_never_playback (st : CtrlState)
    (trace : List (HeadsetEvent × Bool)) :
    (runEvents shippedSettings st trace).calls.all
        (fun c => ! c.isPlaybackCall) = true ∧
    (handleEvent shippedSettings .Idle .Lifted true).calls =
      [.startCapture, .beep (.finite BEEP_VOLUME)] ∧
    (handleEvent shippedSettings .Active .Seated true).calls =
      [.stopCapture, .beep (.finite BEEP_VOLUME)] :=
  ⟨runEvents_shipped_no_playback trace st, rfl, rfl⟩

/-- Under the shipped configuration (`DEBUG_MODE = false`), no step
ever emits a log entry. -/
lemma runEvents_shipped_no_logs :
    ∀ (trace : List (HeadsetEvent × Bool)) (st : CtrlState),
      (runEvents shippedSettings st trace).logs = []
  | [], _ => rfl
  | (ev, devOk) :: rest, st => by
    simp only [runEvents, List.append_eq_nil]
    refine ⟨?_, runEvents_shipped_no_logs rest _⟩
    cases st <;> cases ev <;> cases devOk <;>
      simp [handleEvent, shippedSettings, DEBUG_MODE]

/-- C10: under the shipped configuration, where `DEBUG_MODE` is false,
no event sequence from any state produces any log output, and a bounce
event (`Seated` in `Idle`, `Lifted` in `Active`) has no observable
effect at all: no state change, no AudioEngine call, no error, and no
log entry. -/
theorem shipped_no_debug_output (st : CtrlState)
    (trace : List (HeadsetEvent × Bool)) (devOk : Bool) :
    (runEvents shippedSettings st trace).logs = [] ∧
    handleEvent shippedSettings .Idle .Seated devOk = ⟨.Idle, [], none, []⟩ ∧
    handleEvent shippedSettings .Active .Lifted devOk = ⟨.Active, [], none, []⟩ :=
  ⟨runEvents_shipped_no_logs trace st, rfl, rfl⟩

end AudioGuestbook
